import Mathlib

/-!
A shallow embedding of `usdafoods2csv.py` (USDA FDC JSON → simplified
nutrition CSV).  Python values flowing through the portion-resolution code
are modelled as a `Json` inductive; Python exceptions as `PyErr`; fallible
code returns `Except PyErr _`.  Numbers are modelled as `ℚ` (exact reals in
place of IEEE floats).  `round(x, 1)` is Python's round-half-to-even at one
decimal place, modelled exactly on `ℚ`.

Nutrient measurement records (`{"nutrient": {"number": ...}, "amount": ...}`)
are modelled by the structured type `FoodNutrientRec`: a possibly-missing
number (string or integer, since the source compares the number both against
the string keys of its metadata dict and against the integer literal `268`)
and a possibly-missing numeric amount.  Any of the three missing-key cases in
the source (`nutrient`, `number`, `amount`) collapses to the same
`continue`, hence a single `Option` per field.

The `heappush`/`heappop` pattern of `Macros.from_food_nutrients` is modelled
denotationally: `heappop` returns the lexicographic minimum of all pushed
`(priority, amount)` pairs (this is exactly the heap's observable behaviour),
seeded with the sentinel `(10, 0.0)`.

`Food.__init__` stores the record's `description` unchecked and a non-string
description only surfaces later, at the sort's comparison; the model requires
the description to be a string at construction time, surfacing the same type
error earlier.  `list.sort()` is modelled by `List.insertionSort` on the
same name order (the claimwise-relevant observable, sortedness by name, is
identical for any correct sort).
-/

inductive Json where
  | null : Json
  | bool : Bool → Json
  | num : ℚ → Json
  | str : String → Json
  | arr : List Json → Json
  | obj : List (String × Json) → Json

inductive PyErr where
  | keyError : PyErr
  | typeError : PyErr
  | valueError : PyErr
  | stopIteration : PyErr
deriving DecidableEq

/-- Python subscripting `j[k]` with a string key: succeeds on a dict with the
key present, raises `KeyError` on a dict without it, and `TypeError` on any
non-dict. -/
def Json.getItem : Json → String → Except PyErr Json
  | .obj kvs, k =>
    match kvs.find? (fun kv => kv.1 = k) with
    | some kv => .ok kv.2
    | none => .error .keyError
  | _, _ => .error .typeError

/-- Python iteration `for p in j`: a list yields its elements, a string its
one-character substrings, a dict its keys; anything else raises `TypeError`. -/
def Json.iterate : Json → Except PyErr (List Json)
  | .arr xs => .ok xs
  | .str s => .ok (s.toList.map fun c => Json.str (String.mk [c]))
  | .obj kvs => .ok (kvs.map fun kv => Json.str kv.1)
  | _ => .error .typeError

/-- Python `round(x * 10)` half-to-even on exact rationals. -/
def roundHalfEven (q : ℚ) : ℤ :=
  let f := ⌊q⌋
  let r := q - f
  if r < 1/2 then f
  else if 1/2 < r then f + 1
  else if Even f then f else f + 1

/-- Python `round(x, 1)`: round half-to-even at one decimal place. -/
def pyRound1 (q : ℚ) : ℚ := (roundHalfEven (q * 10) : ℚ) / 10

structure VolumeWeight where
  volume : ℚ
  weight : ℚ
  quantity : ℚ
  descriptor : Json

/-- The `_PORTION_UNIT_ML_MAP` dict: unit id → millilitres per unit. -/
def PORTION_UNIT_ML_MAP (unitId : ℚ) : Option ℚ :=
  if unitId = 1000 then some (2365875/10000)
  else if unitId = 1001 then some (1478672/100000)
  else if unitId = 1002 then some (4928906/1000000)
  else if unitId = 1004 then some 1
  else none

/-- Python membership `unit_id in _PORTION_UNIT_ML_MAP` combined with the
subsequent dict read: a numeric id is looked up (Python numeric equality
matches the int keys), a bool is compared as 0/1, strings and `None` are
simply not members, and unhashable values (lists, dicts) raise `TypeError`. -/
def portionUnitLookup : Json → Except PyErr (Option ℚ)
  | .num q => .ok (PORTION_UNIT_ML_MAP q)
  | .bool _ => .ok none
  | .str _ => .ok none
  | .null => .ok none
  | .arr _ => .error .typeError
  | .obj _ => .error .typeError

/-- Python `x > 0.0` on a JSON value: numbers compare numerically, bools as
0/1, everything else raises `TypeError`. -/
def jsonGtZero : Json → Except PyErr Bool
  | .num q => .ok (decide (0 < q))
  | .bool b => .ok b
  | _ => .error .typeError

/-- Python `x is None`. -/
def Json.isNull : Json → Bool
  | .null => true
  | _ => false

/-- Numeric value of a JSON value already known to satisfy `x > 0.0`. -/
def jsonAsRat : Json → ℚ
  | .num q => q
  | .bool b => if b then 1 else 0
  | _ => 0

/-- Body of `VolumeWeight.from_food_portion`'s `try` block, before the
`except KeyError` handler. -/
def fromFoodPortionBody (p : Json) : Except PyErr (Option VolumeWeight) := do
  let mu ← p.getItem "measureUnit"
  let unitId ← mu.getItem "id"
  let quantity ← p.getItem "amount"
  let mu2 ← p.getItem "measureUnit"
  let descriptor ← mu2.getItem "abbreviation"
  let weight ← p.getItem "gramWeight"
  let factorQ ← portionUnitLookup unitId
  match factorQ with
  | none => .ok none
  | some factor =>
    if quantity.isNull then .ok none
    else do
      let qpos ← jsonGtZero quantity
      if !qpos then .ok none
      else if weight.isNull then .ok none
      else do
        let wpos ← jsonGtZero weight
        if !wpos then .ok none
        else
          .ok (some { volume := factor * jsonAsRat quantity,
                      weight := jsonAsRat weight,
                      quantity := jsonAsRat quantity,
                      descriptor := descriptor })

/-- `VolumeWeight.from_food_portion`: builds a candidate from one raw
portion record, returns `none` when the unit is unrecognised or quantity /
weight are missing or non-positive; `KeyError` during field access is caught
and yields `none`; every other error propagates. -/
def VolumeWeight.from_food_portion (p : Json) : Except PyErr (Option VolumeWeight) :=
  match fromFoodPortionBody p with
  | .error .keyError => .ok none
  | r => r

/-- Python `>` on two descriptor values inside the dataclass tuple
comparison: strings and numbers compare within their own type, any mixed or
non-orderable pair raises `TypeError`. -/
def jsonGtB : Json → Json → Except PyErr Bool
  | .str s, .str t => .ok (decide (t < s))
  | .num x, .num y => .ok (decide (y < x))
  | _, _ => .error .typeError

/-- The dataclass `order=True` comparison `a > b`: lexicographic on
`(volume, weight, quantity, descriptor)`. -/
def vwGtB (a b : VolumeWeight) : Except PyErr Bool :=
  if a.volume ≠ b.volume then .ok (decide (b.volume < a.volume))
  else if a.weight ≠ b.weight then .ok (decide (b.weight < a.weight))
  else if a.quantity ≠ b.quantity then .ok (decide (b.quantity < a.quantity))
  else jsonGtB a.descriptor b.descriptor

/-- One step of Python's `max`: replace the current maximum when the next
item is strictly greater (ties keep the earlier element). -/
def vwMaxStep (cur item : VolumeWeight) : Except PyErr VolumeWeight := do
  let gt ← vwGtB item cur
  pure (if gt then item else cur)

/-- The `try` block of `Food.__init__` lines 132-138: build candidates from
every portion, take the maximum (`ValueError` when no candidate), and round
its weight and volume to one decimal. -/
def tryPortions (j : Json) : Except PyErr (ℚ × ℚ) := do
  let elems ← j.iterate
  let vws ← elems.mapM VolumeWeight.from_food_portion
  match vws.filterMap id with
  | [] => .error .valueError
  | x :: xs => do
    let m ← List.foldlM vwMaxStep x xs
    .ok (pyRound1 m.weight, pyRound1 m.volume)

/-- Portion resolution as performed by `Food.__init__`: start from the
defaults `weight = 100.0`, `volume = None`; a missing `foodPortions` key
(`KeyError`), an empty candidate pool (`ValueError`) or `StopIteration`
leave the defaults; any other error propagates. -/
def resolvePortion : Option Json → Except PyErr (ℚ × Option ℚ)
  | none => .ok (100, none)
  | some j =>
    match tryPortions j with
    | .ok (w, v) => .ok (w, some v)
    | .error .keyError => .ok (100, none)
    | .error .valueError => .ok (100, none)
    | .error .stopIteration => .ok (100, none)
    | .error e => .error e

inductive NutrientCategory where
  | CALORIES : NutrientCategory
  | FAT : NutrientCategory
  | CARBS : NutrientCategory
  | FIBER : NutrientCategory
  | SUGARS : NutrientCategory
  | PROTEIN : NutrientCategory
deriving DecidableEq

structure NutrientMetadata where
  description : String
  category : NutrientCategory
  priority : ℕ
deriving DecidableEq

/-- A nutrient number as it appears in the data: the source compares it both
against the string keys of its metadata dict and against the integer literal
`268`, so the model keeps the string/integer distinction. -/
inductive NutNum where
  | str : String → NutNum
  | int : ℤ → NutNum
deriving DecidableEq

/-- One raw nutrient measurement record
`{"nutrient": {"number": ...}, "amount": ...}`.  A `none` field models any of
the missing-key cases that the source's `except KeyError: continue` skips.
Amounts are restricted to numbers: a non-numeric amount could only either be
ignored or make the Python program fail later (at the kJ multiplication, a
heap tie comparison, or `round`), and no resolved value ever comes from one. -/
structure FoodNutrientRec where
  number : Option NutNum
  amount : Option ℚ

/-- The key/value pairs of the `_NUTRIENT_NUM_METADATA_MAP` dict. -/
def NUTRIENT_NUM_METADATA_LIST : List (String × NutrientMetadata) :=
  [("203", ⟨"protein", .PROTEIN, 1⟩),
   ("204", ⟨"total_lipids", .FAT, 1⟩),
   ("298", ⟨"nlea_fat", .FAT, 2⟩),
   ("205", ⟨"carbs_by_difference", .CARBS, 1⟩),
   ("205.2", ⟨"carbs_by_summation", .CARBS, 2⟩),
   ("291", ⟨"fiber_aoac_991_43", .FIBER, 2⟩),
   ("293", ⟨"fiber_aoac_2011_25", .FIBER, 1⟩),
   ("269.3", ⟨"total_sugars", .SUGARS, 1⟩),
   ("269", ⟨"nlea_sugars", .SUGARS, 2⟩),
   ("208", ⟨"cals_kcal", .CALORIES, 1⟩),
   ("268", ⟨"cals_from_kJ", .CALORIES, 2⟩),
   ("957", ⟨"cals_atwater_general", .CALORIES, 3⟩),
   ("958", ⟨"cals_atwater_specific", .CALORIES, 4⟩)]

/-- The `_NUTRIENT_NUM_METADATA_MAP` dict as a lookup (string keys only). -/
def NUTRIENT_NUM_METADATA_MAP (s : String) : Option NutrientMetadata :=
  NUTRIENT_NUM_METADATA_LIST.lookup s

/-- The Python test `nutrient_num == 268` against the *integer* literal: an
integer number equal to 268 passes, a string number (such as `'268'`) never
does. -/
def kjCode : NutNum → Bool
  | NutNum.int n => n == 268
  | NutNum.str _ => false

/-- Field extraction and the kJ adjustment (lines 89-96): skip the record if
number or amount is missing; multiply the amount by 0.239 exactly when the
number equals the integer `268`. -/
def adjustedEntry (fn : FoodNutrientRec) : Option (NutNum × ℚ) :=
  match fn.number, fn.amount with
  | some n, some a => some (n, if kjCode n then a * (239/1000) else a)
  | _, _ => none

/-- The `(priority, amount)` pairs pushed onto the heap of category `c`
(lines 89-102): records surviving extraction whose number is a string key of
the metadata map with category `c`.  Integer numbers are never keys of the
string-keyed dict, so `nutrient_num not in METADATA_MAP` skips them. -/
def pushedEntries (fns : List FoodNutrientRec) (c : NutrientCategory) : List (ℕ × ℚ) :=
  fns.filterMap fun fn =>
    match adjustedEntry fn with
    | none => none
    | some (NutNum.int _, _) => none
    | some (NutNum.str s, a) =>
      match NUTRIENT_NUM_METADATA_MAP s with
      | none => none
      | some m => if m.category = c then some (m.priority, a) else none

/-- Lexicographic minimum of two `(priority, amount)` pairs — the order the
heap of Python tuples uses. -/
def lexMin (a b : ℕ × ℚ) : ℕ × ℚ :=
  if a.1 < b.1 then a
  else if b.1 < a.1 then b
  else if a.2 ≤ b.2 then a
  else b

/-- The value `heappop` returns for category `c`: the lexicographic minimum
of the sentinel `(10, 0.0)` and every pushed pair, second component. -/
def selectedAmount (fns : List FoodNutrientRec) (c : NutrientCategory) : ℚ :=
  (List.foldl lexMin (10, 0) (pushedEntries fns c)).2

structure Macros where
  calories : ℚ
  fat : ℚ
  carbs : ℚ
  fiber : ℚ
  sugars : ℚ
  protein : ℚ
deriving DecidableEq

/-- `Macros.from_food_nutrients` (lines 84-118): per-category min-priority
selection seeded with the `(10, 0.0)` sentinel, the Atwater fallback when
the selected calories value is exactly `0.0`, then rounding every field to
one decimal place. -/
def Macros.from_food_nutrients (fns : List FoodNutrientRec) : Macros :=
  let calories := selectedAmount fns .CALORIES
  let fat := selectedAmount fns .FAT
  let carbs := selectedAmount fns .CARBS
  let fiber := selectedAmount fns .FIBER
  let sugars := selectedAmount fns .SUGARS
  let protein := selectedAmount fns .PROTEIN
  let calories := if calories = 0 then protein * 4 + carbs * 4 + fat * 9 else calories
  { calories := pyRound1 calories
    fat := pyRound1 fat
    carbs := pyRound1 carbs
    fiber := pyRound1 fiber
    sugars := pyRound1 sugars
    protein := pyRound1 protein }

/-- One raw food record as `Food.__init__` reads it: the four keys it
accesses, each possibly missing.  `foodPortions` is kept as raw JSON (the
portion path must traverse arbitrarily malformed structure); `foodNutrients`
as a list of structured measurement records. -/
structure FoodData where
  fdcId : Option Json
  description : Option Json
  foodPortions : Option Json
  foodNutrients : Option (List FoodNutrientRec)

structure Food where
  source : String
  fdc_id : Json
  name : String
  weight : ℚ
  volume : Option ℚ
  macros : Macros

def exceptOfOption (e : PyErr) : Option α → Except PyErr α
  | none => .error e
  | some a => .ok a

/-- `Food.__init__`: required `fdcId` and `description` lookups (fatal when
missing), portion resolution with its defaults, then the `foodNutrients`
lookup — which sits *outside* the `try` block, so a missing key raises
`KeyError` — and finally the rescaling of the per-100g macros when the
resolved weight differs from 100.0. -/
def Food.init (source : String) (fd : FoodData) : Except PyErr Food := do
  let fdcId ← exceptOfOption .keyError fd.fdcId
  let desc ← exceptOfOption .keyError fd.description
  let name ← match desc with
    | Json.str s => Except.ok s
    | _ => Except.error PyErr.typeError
  let wv ← resolvePortion fd.foodPortions
  let fns ← exceptOfOption .keyError fd.foodNutrients
  let m := Macros.from_food_nutrients fns
  let macros := if wv.1 ≠ 100 then
      let sf := wv.1 / 100
      { calories := pyRound1 (m.calories * sf)
        fat := pyRound1 (m.fat * sf)
        carbs := pyRound1 (m.carbs * sf)
        fiber := pyRound1 (m.fiber * sf)
        sugars := pyRound1 (m.sugars * sf)
        protein := pyRound1 (m.protein * sf) }
    else m
  return { source := source, fdc_id := fdcId, name := name,
           weight := wv.1, volume := wv.2, macros := macros }

/-- The name order used by `Food.__lt__` / `foods.sort()` (case-sensitive
lexical comparison of the description strings). -/
def foodNameLe (a b : Food) : Prop := a.name ≤ b.name

instance : DecidableRel foodNameLe := fun a b => by
  unfold foodNameLe; infer_instance

/-- The dataset driver `main` (lines 169-176): build a `Food` from every
record of the optional Foundation and SR Legacy collections (a missing
collection is the empty list), concatenate, and sort ascending by name. -/
def build_dataset (foundation srLegacy : List FoodData) : Except PyErr (List Food) := do
  let f1 ← foundation.mapM (Food.init "Foundation")
  let f2 ← srLegacy.mapM (Food.init "SR Legacy")
  return List.insertionSort foodNameLe (f1 ++ f2)

/-! Concrete example inputs used to instantiate the theorems below. -/

/-- A cup portion: amount 1, gram weight 120. -/
def cupPortion : Json :=
  Json.obj [("measureUnit", Json.obj [("id", Json.num 1000), ("abbreviation", Json.str "cup")]),
            ("amount", Json.num 1), ("gramWeight", Json.num 120)]

/-- A tablespoon portion: amount 1, gram weight 15. -/
def tbspPortion : Json :=
  Json.obj [("measureUnit", Json.obj [("id", Json.num 1001), ("abbreviation", Json.str "tbsp")]),
            ("amount", Json.num 1), ("gramWeight", Json.num 15)]

/-- A food record with the cup and tablespoon portions and an arbitrary
nutrient list. -/
def c5FoodData (fns : List FoodNutrientRec) : FoodData :=
  ⟨some (Json.num 1), some (Json.str "x"),
   some (Json.arr [cupPortion, tbspPortion]), some fns⟩

/-- A well-formed food record that lacks the `foodNutrients` key. -/
def noNutrientsFood : FoodData :=
  ⟨some (Json.num 1), some (Json.str "a"), some (Json.arr []), none⟩

/-- The nutrient list of §8.3: protein 10, fat 5, carbs 20, no calories. -/
def atwaterNutrients : List FoodNutrientRec :=
  [⟨some (NutNum.str "203"), some 10⟩,
   ⟨some (NutNum.str "204"), some 5⟩,
   ⟨some (NutNum.str "205"), some 20⟩]

/-- The nutrient list of §8.4: a single kJ-code calorie entry of amount 1000. -/
def kjOnlyNutrients : List FoodNutrientRec :=
  [⟨some (NutNum.str "268"), some 1000⟩]

instance : IsTotal Food foodNameLe := ⟨fun a b => le_total a.name b.name⟩

instance : IsTrans Food foodNameLe := ⟨fun _ _ _ => le_trans⟩

/-- The cup candidate built from `cupPortion`. -/
def cupVW : VolumeWeight := ⟨2365875/10000, 120, 1, Json.str "cup"⟩

/-- The tablespoon candidate built from `tbspPortion`. -/
def tbspVW : VolumeWeight := ⟨1478672/100000, 15, 1, Json.str "tbsp"⟩

/-- A Foundation record named "b" with no portions and no nutrients. -/
def fdB : FoodData := ⟨some (Json.num 1), some (Json.str "b"), none, some []⟩

/-- An SR Legacy record named "a" with no portions and no nutrients. -/
def fdA : FoodData := ⟨some (Json.num 2), some (Json.str "a"), none, some []⟩

/-- The food built from `fdB`. -/
def foodB : Food := ⟨"Foundation", Json.num 1, "b", 100, none, Macros.from_food_nutrients []⟩

/-- The food built from `fdA`. -/
def foodA : Food := ⟨"SR Legacy", Json.num 2, "a", 100, none, Macros.from_food_nutrients []⟩

/-! ## Helper lemmas -/

/-- A successful `List.lookup` returns one of the stored values. -/
theorem lookup_snd_mem {l : List (String × NutrientMetadata)} {s : String}
    {m : NutrientMetadata} (h : List.lookup s l = some m) : m ∈ l.map Prod.snd := by
  induction l with
  | nil => simp [List.lookup] at h
  | cons p t ih =>
    obtain ⟨k, v⟩ := p
    rw [List.lookup] at h
    cases hk : s == k with
    | true =>
      rw [hk] at h
      injection h with h
      subst h
      simp
    | false =>
      rw [hk] at h
      simp only [List.map_cons, List.mem_cons]
      exact Or.inr (ih h)

/-- Every priority stored in the metadata table is below 10. -/
theorem metadata_priorities_small :
    ∀ x ∈ NUTRIENT_NUM_METADATA_LIST.map Prod.snd, x.priority < 10 := by decide

/-- Every priority the metadata map can return is below the sentinel
priority 10. -/
theorem metadata_priority_lt_ten {s : String} {m : NutrientMetadata}
    (h : NUTRIENT_NUM_METADATA_MAP s = some m) : m.priority < 10 :=
  metadata_priorities_small m (lookup_snd_mem h)

/-- A measurement with a string number found in the metadata map pushes its
`(priority, amount)` pair. -/
theorem pushedEntries_cons_str {n : String} {m : NutrientMetadata} {c : NutrientCategory}
    (a : ℚ) (fns : List FoodNutrientRec)
    (h : NUTRIENT_NUM_METADATA_MAP n = some m) (hc : m.category = c) :
    pushedEntries (⟨some (NutNum.str n), some a⟩ :: fns) c =
      (m.priority, a) :: pushedEntries fns c := by
  simp [pushedEntries, List.filterMap_cons, adjustedEntry, kjCode, h, hc]

/-- The sentinel loses against any pushed pair of smaller priority. -/
theorem lexMin_sentinel (p : ℕ) (a : ℚ) (h : p < 10) : lexMin (10, 0) (p, a) = (p, a) := by
  unfold lexMin
  simp only
  rw [if_neg (by omega), if_pos h]

theorem lexMin_fst_lt (p q : ℕ) (a b : ℚ) (h : p < q) : lexMin (p, a) (q, b) = (p, a) := by
  unfold lexMin
  simp only
  rw [if_pos h]

theorem lexMin_fst_gt (p q : ℕ) (a b : ℚ) (h : q < p) : lexMin (p, a) (q, b) = (q, b) := by
  unfold lexMin
  simp only
  rw [if_neg (by omega), if_pos h]

theorem lexMin_cases (a b : ℕ × ℚ) : lexMin a b = a ∨ lexMin a b = b := by
  unfold lexMin
  split_ifs <;> simp

theorem foldl_lexMin_nonneg (l : List (ℕ × ℚ)) (a : ℕ × ℚ) (ha : 0 ≤ a.2)
    (hl : ∀ x ∈ l, 0 ≤ x.2) : 0 ≤ (List.foldl lexMin a l).2 := by
  induction l generalizing a with
  | nil => exact ha
  | cons x t ih =>
    rw [List.foldl_cons]
    refine ih (lexMin a x) ?_ fun y hy => hl y (List.mem_cons_of_mem x hy)
    rcases lexMin_cases a x with h | h <;> rw [h]
    · exact ha
    · exact hl x (List.mem_cons_self x t)

/-- Every pushed amount comes unchanged from some measurement of the input
list (integer-numbered entries are dropped before the heap). -/
theorem pushedEntries_nonneg (fns : List FoodNutrientRec) (c : NutrientCategory)
    (h : ∀ fn ∈ fns, ∀ a, fn.amount = some a → 0 ≤ a) :
    ∀ x ∈ pushedEntries fns c, 0 ≤ x.2 := by
  intro x hx
  rw [pushedEntries, List.mem_filterMap] at hx
  obtain ⟨fn, hfn, hfx⟩ := hx
  obtain ⟨n?, a?⟩ := fn
  cases n? with
  | none => simp [adjustedEntry] at hfx
  | some n =>
    cases a? with
    | none => simp [adjustedEntry] at hfx
    | some a =>
      have ha : 0 ≤ a := h ⟨some n, some a⟩ hfn a rfl
      cases n with
      | int k => simp [adjustedEntry] at hfx
      | str s =>
        simp only [adjustedEntry, kjCode] at hfx
        rw [if_neg (by simp)] at hfx
        cases hm : NUTRIENT_NUM_METADATA_MAP s with
        | none =>
          simp only [hm] at hfx
          cases hfx
        | some m =>
          simp only [hm] at hfx
          by_cases hc : m.category = c
          · rw [if_pos hc] at hfx
            injection hfx with hfx
            subst hfx
            exact ha
          · rw [if_neg hc] at hfx
            cases hfx

theorem selectedAmount_nonneg (fns : List FoodNutrientRec) (c : NutrientCategory)
    (h : ∀ fn ∈ fns, ∀ a, fn.amount = some a → 0 ≤ a) :
    0 ≤ selectedAmount fns c :=
  foldl_lexMin_nonneg _ _ le_rfl (pushedEntries_nonneg fns c h)

theorem roundHalfEven_nonneg (x : ℚ) (h : 0 ≤ x) : 0 ≤ roundHalfEven x := by
  have hf : (0 : ℤ) ≤ ⌊x⌋ := Int.floor_nonneg.mpr h
  simp only [roundHalfEven]
  split_ifs <;> omega

theorem pyRound1_nonneg (q : ℚ) (h : 0 ≤ q) : 0 ≤ pyRound1 q := by
  unfold pyRound1
  have := roundHalfEven_nonneg (q * 10) (by linarith)
  positivity

/-- Evaluation of the cup portion. -/
theorem ffp_cup : VolumeWeight.from_food_portion cupPortion = Except.ok (some cupVW) := by
  simp [VolumeWeight.from_food_portion, fromFoodPortionBody, cupPortion, Json.getItem,
        portionUnitLookup, PORTION_UNIT_ML_MAP, jsonGtZero, jsonAsRat, Json.isNull,
        List.find?, bind, Except.bind, cupVW]

/-- Evaluation of the tablespoon portion. -/
theorem ffp_tbsp : VolumeWeight.from_food_portion tbspPortion = Except.ok (some tbspVW) := by
  simp [VolumeWeight.from_food_portion, fromFoodPortionBody, tbspPortion, Json.getItem,
        portionUnitLookup, PORTION_UNIT_ML_MAP, jsonGtZero, jsonAsRat, Json.isNull,
        List.find?, bind, Except.bind, tbspVW]

/-- The cup candidate beats the tablespoon candidate (larger volume). -/
theorem vwMaxStep_cup_tbsp : vwMaxStep cupVW tbspVW = Except.ok cupVW := by
  norm_num [vwMaxStep, vwGtB, jsonGtB, cupVW, tbspVW, bind, Except.bind, pure, Except.pure]

theorem tryPortions_cup_tbsp :
    tryPortions (Json.arr [cupPortion, tbspPortion]) = Except.ok (120, 1183/5) := by
  simp [tryPortions, Json.iterate, List.mapM.loop, ffp_cup, ffp_tbsp, bind, Except.bind,
        pure, Except.pure, List.filterMap, id, List.foldlM, vwMaxStep_cup_tbsp]
  norm_num [cupVW, pyRound1, roundHalfEven]

theorem resolvePortion_cup_tbsp :
    resolvePortion (some (Json.arr [cupPortion, tbspPortion])) =
      Except.ok (120, some (1183/5)) := by
  simp [resolvePortion, tryPortions_cup_tbsp]

theorem tryPortions_emptyArr : tryPortions (Json.arr []) = Except.error PyErr.valueError := by
  simp [tryPortions, Json.iterate, bind, Except.bind, List.mapM.loop, pure, Except.pure,
        List.filterMap, List.reverse, List.reverseAux]

theorem resolvePortion_emptyArr :
    resolvePortion (some (Json.arr [])) = Except.ok (100, none) := by
  simp [resolvePortion, tryPortions_emptyArr]

theorem from_food_nutrients_nil : Macros.from_food_nutrients [] = ⟨0, 0, 0, 0, 0, 0⟩ := by
  norm_num [Macros.from_food_nutrients, selectedAmount, pushedEntries, lexMin,
        pyRound1, roundHalfEven]

/-- A successful construction decomposes into its four field accesses. -/
theorem Food.init_ok {source : String} {fd : FoodData} {f : Food}
    (h : Food.init source fd = Except.ok f) :
    ∃ i s w v fns, fd.fdcId = some i ∧ fd.description = some (Json.str s) ∧
      resolvePortion fd.foodPortions = Except.ok (w, v) ∧ fd.foodNutrients = some fns ∧
      f.weight = w ∧ f.volume = v := by
  rcases hid : fd.fdcId with _ | i <;>
    simp only [Food.init, hid, exceptOfOption, bind, Except.bind] at h
  · cases h
  rcases hd : fd.description with _ | dj <;> simp only [hd] at h
  · cases h
  cases dj <;> try cases h
  case str s =>
  rcases hrp : resolvePortion fd.foodPortions with e | wv <;> simp only [hrp] at h
  · cases h
  obtain ⟨w, v⟩ := wv
  rcases hfns : fd.foodNutrients with _ | fns <;> simp only [hfns] at h
  · cases h
  simp only [pure, Except.pure] at h
  injection h with h
  subst h
  exact ⟨i, s, w, v, fns, rfl, rfl, rfl, rfl, rfl, rfl⟩

/-- A portion resolution that leaves the volume absent also leaves the
default weight. -/
theorem resolvePortion_volume_none {fp : Option Json} {w : ℚ}
    (h : resolvePortion fp = Except.ok (w, none)) : w = 100 := by
  cases fp with
  | none =>
    simp only [resolvePortion] at h
    injection h with h
    exact (Prod.ext_iff.mp h).1.symm
  | some j =>
    rw [resolvePortion] at h
    rcases htry : tryPortions j with e | p
    · rw [htry] at h
      cases e <;> simp only [] at h <;> first
        | (injection h with h; exact (Prod.ext_iff.mp h).1.symm)
        | cases h
    · obtain ⟨w', v'⟩ := p
      rw [htry] at h
      simp at h

/-- Mapping `from_food_portion` over entries that all resolve to `none`. -/
theorem mapM_loop_all_none (l : List Json) (acc : List (Option VolumeWeight))
    (h : ∀ p ∈ l, VolumeWeight.from_food_portion p = Except.ok none) :
    List.mapM.loop VolumeWeight.from_food_portion l acc =
      Except.ok (acc.reverse ++ l.map fun _ => none) := by
  induction l generalizing acc with
  | nil => simp [List.mapM.loop, pure, Except.pure]
  | cons p t ih =>
    rw [show List.mapM.loop VolumeWeight.from_food_portion (p :: t) acc =
          VolumeWeight.from_food_portion p >>= fun b =>
            List.mapM.loop VolumeWeight.from_food_portion t (b :: acc) from rfl]
    rw [h p (List.mem_cons_self p t)]
    simp only [bind, Except.bind]
    rw [ih _ fun q hq => h q (List.mem_cons_of_mem p hq)]
    simp

theorem filterMap_id_none (l : List Json) :
    List.filterMap id (l.map fun _ => (none : Option VolumeWeight)) = [] := by
  induction l <;> simp_all [List.filterMap]

theorem mapM_all_none (l : List Json)
    (h : ∀ p ∈ l, VolumeWeight.from_food_portion p = Except.ok none) :
    List.mapM VolumeWeight.from_food_portion l =
      Except.ok (l.map fun _ => none) := by
  rw [show List.mapM VolumeWeight.from_food_portion l =
        List.mapM.loop VolumeWeight.from_food_portion l [] from rfl]
  rw [mapM_loop_all_none l [] h]
  simp

/-- When every candidate is rejected, the maximum raises `ValueError`. -/
theorem tryPortions_all_none {j : Json} {elems : List Json}
    (hit : j.iterate = Except.ok elems)
    (hall : ∀ p ∈ elems, VolumeWeight.from_food_portion p = Except.ok none) :
    tryPortions j = Except.error PyErr.valueError := by
  unfold tryPortions
  rw [hit]
  simp only [bind, Except.bind]
  rw [mapM_all_none elems hall]
  simp [filterMap_id_none]

theorem food_init_fdB : Food.init "Foundation" fdB = Except.ok foodB := by
  simp only [Food.init, fdB, foodB, exceptOfOption, bind, Except.bind, resolvePortion,
             pure, Except.pure]
  norm_num

theorem food_init_fdA : Food.init "SR Legacy" fdA = Except.ok foodA := by
  simp only [Food.init, fdA, foodA, exceptOfOption, bind, Except.bind, resolvePortion,
             pure, Except.pure]
  norm_num

theorem build_two : build_dataset [fdB] [fdA] = Except.ok [foodA, foodB] := by
  simp only [build_dataset, bind, Except.bind, pure, Except.pure,
             List.mapM, List.mapM.loop, food_init_fdB, food_init_fdA,
             List.reverse, List.reverseAux, List.append_nil, List.nil_append]
  simp only [List.insertionSort, List.orderedInsert]
  rw [if_neg (by simp [foodNameLe, foodB, foodA, String.le_iff_toList_le]; decide)]

/-! ## Claim theorems -/

/-- C1: priority resolution — for any two measurements whose identifiers map
to the same macro category but carry different priority ranks, the category
resolves (the value `heappop` returns before fallback and rounding) to the
amount of the measurement with the lower priority number, in either input
order. -/
theorem priority_resolution (n1 n2 : String) (m1 m2 : NutrientMetadata)
    (a1 a2 : ℚ) (c : NutrientCategory)
    (h1 : NUTRIENT_NUM_METADATA_MAP n1 = some m1)
    (h2 : NUTRIENT_NUM_METADATA_MAP n2 = some m2)
    (hc1 : m1.category = c) (hc2 : m2.category = c)
    (hp : m1.priority < m2.priority) :
    selectedAmount [⟨some (NutNum.str n1), some a1⟩, ⟨some (NutNum.str n2), some a2⟩] c = a1 ∧
    selectedAmount [⟨some (NutNum.str n2), some a2⟩, ⟨some (NutNum.str n1), some a1⟩] c = a1 := by
  have p1lt := metadata_priority_lt_ten h1
  have p2lt := metadata_priority_lt_ten h2
  constructor
  · rw [selectedAmount, pushedEntries_cons_str a1 _ h1 hc1, pushedEntries_cons_str a2 _ h2 hc2]
    rw [show pushedEntries [] c = [] from rfl]
    rw [List.foldl_cons, List.foldl_cons, List.foldl_nil,
        lexMin_sentinel _ _ p1lt, lexMin_fst_lt _ _ _ _ hp]
  · rw [selectedAmount, pushedEntries_cons_str a2 _ h2 hc2, pushedEntries_cons_str a1 _ h1 hc1]
    rw [show pushedEntries [] c = [] from rfl]
    rw [List.foldl_cons, List.foldl_cons, List.foldl_nil,
        lexMin_sentinel _ _ p2lt, lexMin_fst_gt _ _ _ _ hp]

/-- C1 witness: fiber reported by code "293" (rank 1, amount 7) and code
"291" (rank 2, amount 9) resolves to 7 in both input orders. -/
theorem priority_resolution_witness :
    selectedAmount [⟨some (NutNum.str "293"), some 7⟩, ⟨some (NutNum.str "291"), some 9⟩]
        NutrientCategory.FIBER = 7 ∧
    selectedAmount [⟨some (NutNum.str "291"), some 9⟩, ⟨some (NutNum.str "293"), some 7⟩]
        NutrientCategory.FIBER = 7 :=
  priority_resolution "293" "291" ⟨"fiber_aoac_2011_25", .FIBER, 1⟩
    ⟨"fiber_aoac_991_43", .FIBER, 2⟩ 7 9 NutrientCategory.FIBER
    (by decide) (by decide) rfl rfl (by decide)

/-- C2 (the code at the claim's input): a nutrient list whose only calorie
entry carries the kJ string code "268" with amount 1000 resolves calories to
1000.0, not 239.0 — `nutrient_num == 268` compares against the integer
literal and never matches the string numbers the string-keyed metadata map
accepts, so the 0.239 conversion is dead code. -/
theorem kj_conversion_dead :
    (Macros.from_food_nutrients kjOnlyNutrients).calories = 1000 ∧
    (Macros.from_food_nutrients kjOnlyNutrients).calories ≠ 239 := by
  have h : (Macros.from_food_nutrients kjOnlyNutrients).calories = 1000 := by
    simp [Macros.from_food_nutrients, selectedAmount, pushedEntries, kjOnlyNutrients,
          adjustedEntry, kjCode, NUTRIENT_NUM_METADATA_MAP, NUTRIENT_NUM_METADATA_LIST,
          List.lookup, lexMin]
    norm_num [pyRound1, roundHalfEven]
  refine ⟨h, ?_⟩
  rw [h]
  norm_num

/-- C3 counterexample: a well-formed food record that merely lacks the
`foodNutrients` key is not assembled — `Food.__init__` accesses
`food_data['foodNutrients']` outside the `try` block, so the `KeyError`
propagates and aborts the run. -/
theorem missing_foodNutrients_aborts :
    Food.init "Foundation" noNutrientsFood = Except.error PyErr.keyError := by
  simp [Food.init, noNutrientsFood, exceptOfOption, bind, Except.bind,
        resolvePortion_emptyArr]

/-- C3 amended: a food record lacking `foodNutrients` makes construction
fail (the whole run aborts); only the absence of `foodPortions` degrades
gracefully — the food is assembled with the default weight 100.0, absent
volume, and macros resolved from its nutrient list. -/
theorem graceful_absence_amended :
    (∀ source fd, fd.foodNutrients = none → ∃ e, Food.init source fd = Except.error e) ∧
    (∀ source i s fns,
      Food.init source ⟨some i, some (Json.str s), none, some fns⟩ =
        Except.ok ⟨source, i, s, 100, none, Macros.from_food_nutrients fns⟩) := by
  constructor
  · intro source fd hfn
    rcases h : Food.init source fd with e | f
    · exact ⟨e, rfl⟩
    · obtain ⟨i, s, w, v, fns, _, _, _, hfns, _, _⟩ := Food.init_ok h
      rw [hfn] at hfns
      cases hfns
  · intro source i s fns
    simp only [Food.init, exceptOfOption, bind, Except.bind, resolvePortion,
               pure, Except.pure]
    norm_num

/-- C3 witness: a concrete record without `foodNutrients` errors; a concrete
record without `foodPortions` is assembled with the defaults. -/
theorem graceful_absence_witness :
    (∃ e, Food.init "Foundation" noNutrientsFood = Except.error e) ∧
    Food.init "SR Legacy" ⟨some (Json.num 9), some (Json.str "w"), none, some []⟩ =
      Except.ok ⟨"SR Legacy", Json.num 9, "w", 100, none, Macros.from_food_nutrients []⟩ :=
  ⟨graceful_absence_amended.1 "Foundation" noNutrientsFood rfl,
   graceful_absence_amended.2 "SR Legacy" (Json.num 9) "w" []⟩

/-- C4: Atwater fallback — whenever the priority-selected calories value is
exactly 0.0, the resolved calories are recomputed as
`protein × 4 + carbs × 4 + fat × 9` from the already-selected (unrounded)
values, then rounded. -/
theorem atwater_fallback (fns : List FoodNutrientRec)
    (h : selectedAmount fns NutrientCategory.CALORIES = 0) :
    (Macros.from_food_nutrients fns).calories =
      pyRound1 (selectedAmount fns NutrientCategory.PROTEIN * 4 +
                selectedAmount fns NutrientCategory.CARBS * 4 +
                selectedAmount fns NutrientCategory.FAT * 9) := by
  simp [Macros.from_food_nutrients, h]

/-- Selected amounts of the §8.3 example list. -/
theorem atwater_selected :
    selectedAmount atwaterNutrients NutrientCategory.CALORIES = 0 ∧
    selectedAmount atwaterNutrients NutrientCategory.PROTEIN = 10 ∧
    selectedAmount atwaterNutrients NutrientCategory.CARBS = 20 ∧
    selectedAmount atwaterNutrients NutrientCategory.FAT = 5 := by
  refine ⟨?_, ?_, ?_, ?_⟩ <;>
    simp [selectedAmount, pushedEntries, atwaterNutrients, adjustedEntry, kjCode,
          NUTRIENT_NUM_METADATA_MAP, NUTRIENT_NUM_METADATA_LIST, List.lookup, lexMin]

/-- C4 witness: protein 10, fat 5, carbs 20 and no direct calorie
measurement yield calories 10×4 + 20×4 + 5×9 = 165.0. -/
theorem atwater_fallback_witness :
    selectedAmount atwaterNutrients NutrientCategory.CALORIES = 0 ∧
    (Macros.from_food_nutrients atwaterNutrients).calories = 165 := by
  obtain ⟨hc, hp, hcb, hf⟩ := atwater_selected
  refine ⟨hc, ?_⟩
  rw [atwater_fallback atwaterNutrients hc, hp, hcb, hf]
  norm_num [pyRound1, roundHalfEven]

/-- C5: portion selection and rescaling — with the cup (amount 1, 120 g) and
tablespoon (amount 1, 15 g) portions, the cup is selected (larger volume),
the resolved weight is 120.0 (volume 236.6), and every per-100g macro value
M is rescaled to `round(M × 1.2, 1)`. -/
theorem portion_selection_rescaling (fns : List FoodNutrientRec) :
    Food.init "Foundation" (c5FoodData fns) =
      Except.ok ⟨"Foundation", Json.num 1, "x", 120, some (1183/5),
        ⟨pyRound1 ((Macros.from_food_nutrients fns).calories * (6/5)),
         pyRound1 ((Macros.from_food_nutrients fns).fat * (6/5)),
         pyRound1 ((Macros.from_food_nutrients fns).carbs * (6/5)),
         pyRound1 ((Macros.from_food_nutrients fns).fiber * (6/5)),
         pyRound1 ((Macros.from_food_nutrients fns).sugars * (6/5)),
         pyRound1 ((Macros.from_food_nutrients fns).protein * (6/5))⟩⟩ := by
  simp only [Food.init, c5FoodData, exceptOfOption, bind, Except.bind,
             resolvePortion_cup_tbsp, pure, Except.pure]
  norm_num

/-- C6 counterexample: a portions list whose only entry is the number 5 has
no valid candidate, yet portion resolution raises `TypeError` to the caller
(subscripting a non-dict) — only `KeyError`, `StopIteration` and
`ValueError` are caught, so not every malformed-structure error is absorbed. -/
theorem malformed_portion_raises :
    resolvePortion (some (Json.arr [Json.num 5])) = Except.error PyErr.typeError := by
  simp [resolvePortion, tryPortions, Json.iterate, bind, Except.bind, List.mapM.loop,
        VolumeWeight.from_food_portion, fromFoodPortionBody, Json.getItem]

/-- C6 amended: for every portions input with no valid candidate in which
every malformed access fails with a *missing key* — a missing `foodPortions`
key, an empty list, or entries each rejected (unrecognised unit,
non-positive or missing quantity or weight, missing nested keys) — portion
resolution returns weight 100.0 and absent volume; malformed entries whose
traversal hits a type error instead propagate to the caller. -/
theorem portion_fallback_amended (fp : Option Json)
    (h : ∀ j, fp = some j → ∃ elems, j.iterate = Except.ok elems ∧
         ∀ p ∈ elems, VolumeWeight.from_food_portion p = Except.ok none) :
    resolvePortion fp = Except.ok (100, none) := by
  cases fp with
  | none => rfl
  | some j =>
    obtain ⟨elems, hit, hall⟩ := h j rfl
    rw [resolvePortion, tryPortions_all_none hit hall]

/-- C6 witness: a single portion entry that lacks the `measureUnit` key is
rejected via the caught `KeyError` and the defaults are returned. -/
theorem portion_fallback_witness :
    resolvePortion (some (Json.arr [Json.obj [("amount", Json.num 1)]])) =
      Except.ok (100, none) :=
  portion_fallback_amended _ (by
    intro j hj
    injection hj with hj
    subst hj
    refine ⟨[Json.obj [("amount", Json.num 1)]], rfl, ?_⟩
    intro p hp
    rw [List.mem_singleton] at hp
    subst hp
    simp [VolumeWeight.from_food_portion, fromFoodPortionBody, Json.getItem, List.find?,
          bind, Except.bind])

/-- C7: a food with an empty portions list and an empty nutrients list is
assembled without error, with weight 100.0, absent volume, and all six
macros exactly 0.0. -/
theorem empty_food_graceful :
    Food.init "Foundation" ⟨some (Json.num 1), some (Json.str "e"),
        some (Json.arr []), some []⟩ =
      Except.ok ⟨"Foundation", Json.num 1, "e", 100, none, ⟨0, 0, 0, 0, 0, 0⟩⟩ := by
  simp only [Food.init, exceptOfOption, bind, Except.bind, resolvePortion_emptyArr,
             pure, Except.pure, from_food_nutrients_nil]
  norm_num

/-- C8 counterexample: a protein measurement with amount −5 resolves to a
negative protein field — amounts are never validated. -/
theorem negative_amount_negative_macro :
    (Macros.from_food_nutrients [⟨some (NutNum.str "203"), some (-5)⟩]).protein < 0 := by
  have h : (Macros.from_food_nutrients [⟨some (NutNum.str "203"), some (-5)⟩]).protein
      = -5 := by
    simp [Macros.from_food_nutrients, selectedAmount, pushedEntries, adjustedEntry, kjCode,
          NUTRIENT_NUM_METADATA_MAP, NUTRIENT_NUM_METADATA_LIST, List.lookup, lexMin]
    norm_num [pyRound1, roundHalfEven]
  rw [h]
  norm_num

/-- C8 amended: for every input measurement list whose present amounts are
all non-negative, each of the six fields of the resolved `Macros` value is
non-negative. -/
theorem macros_nonneg_amended (fns : List FoodNutrientRec)
    (h : ∀ fn ∈ fns, ∀ a, fn.amount = some a → 0 ≤ a) :
    0 ≤ (Macros.from_food_nutrients fns).calories ∧
    0 ≤ (Macros.from_food_nutrients fns).fat ∧
    0 ≤ (Macros.from_food_nutrients fns).carbs ∧
    0 ≤ (Macros.from_food_nutrients fns).fiber ∧
    0 ≤ (Macros.from_food_nutrients fns).sugars ∧
    0 ≤ (Macros.from_food_nutrients fns).protein := by
  have hcal := selectedAmount_nonneg fns .CALORIES h
  have hfat := selectedAmount_nonneg fns .FAT h
  have hcarb := selectedAmount_nonneg fns .CARBS h
  have hfib := selectedAmount_nonneg fns .FIBER h
  have hsug := selectedAmount_nonneg fns .SUGARS h
  have hpro := selectedAmount_nonneg fns .PROTEIN h
  simp only [Macros.from_food_nutrients]
  refine ⟨?_, pyRound1_nonneg _ hfat, pyRound1_nonneg _ hcarb,
          pyRound1_nonneg _ hfib, pyRound1_nonneg _ hsug, pyRound1_nonneg _ hpro⟩
  split_ifs with h0
  · exact pyRound1_nonneg _ (by linarith)
  · exact pyRound1_nonneg _ hcal

/-- C8 witness: a single non-negative fat measurement yields six
non-negative fields. -/
theorem macros_nonneg_witness :
    0 ≤ (Macros.from_food_nutrients [⟨some (NutNum.str "204"), some 3⟩]).calories ∧
    0 ≤ (Macros.from_food_nutrients [⟨some (NutNum.str "204"), some 3⟩]).fat ∧
    0 ≤ (Macros.from_food_nutrients [⟨some (NutNum.str "204"), some 3⟩]).carbs ∧
    0 ≤ (Macros.from_food_nutrients [⟨some (NutNum.str "204"), some 3⟩]).fiber ∧
    0 ≤ (Macros.from_food_nutrients [⟨some (NutNum.str "204"), some 3⟩]).sugars ∧
    0 ≤ (Macros.from_food_nutrients [⟨some (NutNum.str "204"), some 3⟩]).protein :=
  macros_nonneg_amended _ (by
    intro fn hfn a ha
    rw [List.mem_singleton] at hfn
    subst hfn
    injection ha with ha
    subst ha
    norm_num)

/-- C9: sort order — whenever the dataset driver succeeds, the sequence of
output foods (combined Foundation and SR Legacy collections) is
non-decreasing by food name under case-sensitive lexical comparison. -/
theorem dataset_sorted_by_name (foundation srLegacy : List FoodData) (foods : List Food)
    (h : build_dataset foundation srLegacy = Except.ok foods) :
    List.Pairwise foodNameLe foods := by
  rcases h1 : List.mapM (Food.init "Foundation") foundation with e | f1 <;>
    simp only [build_dataset, h1, bind, Except.bind] at h
  · cases h
  rcases h2 : List.mapM (Food.init "SR Legacy") srLegacy with e | f2 <;>
    simp only [h2] at h
  · cases h
  simp only [pure, Except.pure] at h
  injection h with h
  subst h
  exact List.sorted_insertionSort foodNameLe (f1 ++ f2)

/-- C9 witness: a Foundation food "b" and an SR Legacy food "a" come out in
the order [a, b], which is pairwise non-decreasing by name. -/
theorem dataset_sorted_witness : List.Pairwise foodNameLe [foodA, foodB] :=
  dataset_sorted_by_name [fdB] [fdA] [foodA, foodB] build_two

/-- C10: whenever a `Food` is successfully constructed and its resolved
volume is absent, its resolved weight is the default 100.0 — weight and
volume are always set together from the same selected portion. -/
theorem volume_absent_weight_default (source : String) (fd : FoodData) (f : Food)
    (h : Food.init source fd = Except.ok f) (hv : f.volume = none) : f.weight = 100 := by
  obtain ⟨i, s, w, v, fns, _, _, hrp, _, hw, hvv⟩ := Food.init_ok h
  subst hw
  rw [hvv] at hv
  subst hv
  exact resolvePortion_volume_none hrp

/-- C10 witness: the food built from the portion-less record `fdB` has
absent volume and weight exactly 100. -/
theorem volume_absent_weight_witness : foodB.weight = 100 :=
  volume_absent_weight_default "Foundation" fdB foodB food_init_fdB rfl
